import Mathlib

/-!
Verification of the pyarmor CLI entry module (src/cli/__main__.py) against its
natural-language specification.  The Python module is shallowly embedded below:
argparse namespaces become structures, the options dictionary becomes a partial
map from strings to Python-like values, raised exceptions become the error side
of an Except computation, and the logging/exit policy of main() becomes an
explicit outcome record.  External collaborators (Context accessors, the
Builder engine, the filesystem) are abstracted as structure fields or explicit
function parameters that the theorems quantify over.
-/

/-- Python runtime values that can appear in the gen options dictionary or as
attributes of the parsed argparse namespace.  The constructor none models the
Python value None (the unset sentinel of argparse). -/
inductive PyVal where
  | none : PyVal
  | bool : Bool → PyVal
  | int : Int → PyVal
  | str : String → PyVal
  | strList : List String → PyVal
deriving DecidableEq, Repr

/-- Exceptions of the embedded program: CliError msg args models
errors.CliError(msg, *args) (the two-argument raises in check_gen_context keep
their argument list unformatted, exactly as the source does); attributeError
models the AttributeError raised by getattr on a missing namespace attribute;
fileNotFoundError models FileNotFoundError; otherError is any other uncaught
exception reaching main. -/
inductive PyErr where
  | cliError : String → List String → PyErr
  | attributeError : String → PyErr
  | fileNotFoundError : PyErr
  | otherError : String → PyErr
deriving DecidableEq, Repr

/-- The NormalizedOptions mapping: a Python dict from option name to value,
embedded as a partial map.  A key bound to some v means the dict has an entry,
Option.none means the key is absent. -/
def Options : Type := String → Option PyVal

/-- Dict assignment options[k] = v. -/
def setOpt (o : Options) (k : String) (v : PyVal) : Options :=
  fun k2 => if k2 = k then some v else o k2

/-- The empty dict that format_gen_args starts from. -/
def emptyOptions : Options := fun _ => Option.none

/-- Python options.get(k, d) where the stored value is an int (used for the
restrict level, which argparse constrains to the ints 0, 1, 2). -/
def pyGetInt (o : Options) (k : String) (d : Int) : Int :=
  match o k with
  | some (PyVal.int n) => n
  | _ => d

/-- Python options.get(k, d) where the stored value is a string (used for
the output path, which is always a string when present). -/
def pyGetStr (o : Options) (k : String) (d : String) : String :=
  match o k with
  | some (PyVal.str s) => s
  | _ => d

/-- os.path.join for the relative paths the module builds. -/
def pyJoin (a b : String) : String :=
  if a = "" then b else a ++ "/" ++ b

/-- The single-quote character, used by the Python repr of a string. -/
def squote : String := String.singleton (Char.ofNat 39)

/-- Python repr of a plain string (no escaping is needed for the path-like
tokens that reach the too-many-args messages). -/
def pyRepr (s : String) : String := squote ++ s ++ squote

/-- Python repr of a list of strings, as interpolated by
"too many args %s" % inputs[1:]. -/
def pyReprStrList (xs : List String) : String :=
  "[" ++ String.intercalate ", " (xs.map pyRepr) ++ "]"

/-- The argparse namespace produced by parsing a gen command line.  Each field
is one dest declared by gen_parser, with Option.none as the unset sentinel
(argparse default None).  Two dests deliberately have non-None parser
defaults: no_runtime is a store_true flag whose default is False, and inputs
is a required one-or-more positional, so both are always present. -/
structure GenArgs where
  output : Option String
  pack : Option String
  no_runtime : Bool
  recursive : Option Bool
  findall : Option Bool
  includes : Option (List String)
  excludes : Option (List String)
  obf_module : Option Int
  obf_code : Option Int
  no_wrap : Option Bool
  mix_str : Option Bool
  mix_name : Option Bool
  enable_bcc : Option Bool
  enable_rft : Option Bool
  enable_jit : Option Bool
  enable_themida : Option Bool
  assert_call : Option Bool
  assert_import : Option Bool
  enables : Option (List String)
  restrict_module : Option Int
  relative_import : Option Int
  relative : Option String
  platforms : Option (List String)
  outer : Option String
  expired : Option String
  period : Option Int
  devices : Option (List String)
  bind_interp : Option String
  hook : Option String
  inputs : List String

/-- Lift an optional Bool attribute to its Python value. -/
def optBool : Option Bool → PyVal
  | Option.none => PyVal.none
  | some b => PyVal.bool b

/-- Lift an optional Int attribute to its Python value. -/
def optInt : Option Int → PyVal
  | Option.none => PyVal.none
  | some n => PyVal.int n

/-- Lift an optional String attribute to its Python value. -/
def optStr : Option String → PyVal
  | Option.none => PyVal.none
  | some s => PyVal.str s

/-- Lift an optional list attribute to its Python value. -/
def optList : Option (List String) → PyVal
  | Option.none => PyVal.none
  | some xs => PyVal.strList xs

/-- getattr(args, x) on the gen namespace: returns the attribute value for
every dest that gen_parser declares, and raises AttributeError for any other
name.  Note that the parser declares the dest obf_module (from the flag
spelled with obf), so the name obj_module is not an attribute. -/
def getAttr (a : GenArgs) (x : String) : Except PyErr PyVal :=
  if x = "recursive" then Except.ok (optBool a.recursive)
  else if x = "findall" then Except.ok (optBool a.findall)
  else if x = "inputs" then Except.ok (PyVal.strList a.inputs)
  else if x = "output" then Except.ok (optStr a.output)
  else if x = "no_runtime" then Except.ok (PyVal.bool a.no_runtime)
  else if x = "enable_bcc" then Except.ok (optBool a.enable_bcc)
  else if x = "enable_jit" then Except.ok (optBool a.enable_jit)
  else if x = "enable_rft" then Except.ok (optBool a.enable_rft)
  else if x = "enable_themida" then Except.ok (optBool a.enable_themida)
  else if x = "obf_module" then Except.ok (optInt a.obf_module)
  else if x = "obf_code" then Except.ok (optInt a.obf_code)
  else if x = "assert_import" then Except.ok (optBool a.assert_import)
  else if x = "assert_call" then Except.ok (optBool a.assert_call)
  else if x = "mix_name" then Except.ok (optBool a.mix_name)
  else if x = "mix_str" then Except.ok (optBool a.mix_str)
  else if x = "relative_import" then Except.ok (optInt a.relative_import)
  else if x = "restrict_module" then Except.ok (optInt a.restrict_module)
  else if x = "platforms" then Except.ok (optList a.platforms)
  else if x = "outer" then Except.ok (optStr a.outer)
  else if x = "period" then Except.ok (optInt a.period)
  else if x = "expired" then Except.ok (optStr a.expired)
  else if x = "devices" then Except.ok (optList a.devices)
  else if x = "no_wrap" then Except.ok (optBool a.no_wrap)
  else if x = "enables" then Except.ok (optList a.enables)
  else if x = "relative" then Except.ok (optStr a.relative)
  else if x = "includes" then Except.ok (optList a.includes)
  else if x = "excludes" then Except.ok (optList a.excludes)
  else if x = "pack" then Except.ok (optStr a.pack)
  else if x = "bind_interp" then Except.ok (optStr a.bind_interp)
  else if x = "hook" then Except.ok (optStr a.hook)
  else Except.error (PyErr.attributeError x)

/-- The literal allow-list tuple of format_gen_args, in source order.  It
names obj_module, which is not a dest of the parser. -/
def genAttrNames : List String :=
  ["recursive", "findall", "inputs", "output", "no_runtime",
   "enable_bcc", "enable_jit", "enable_rft", "enable_themida",
   "obj_module", "obf_code", "assert_import", "assert_call",
   "mix_name", "mix_str", "relative_import", "restrict_module",
   "platforms", "outer", "period", "expired", "devices"]

/-- The copying loop of format_gen_args: for each name x in the allow-list,
v = getattr(args, x); if v is not None then options[x] = v.  A failing
getattr propagates as the raised exception. -/
def copyFlags (a : GenArgs) : List String → Options → Except PyErr Options
  | [], opts => Except.ok opts
  | x :: rest, opts =>
    match getAttr a x with
    | Except.error e => Except.error e
    | Except.ok v =>
      copyFlags a rest (if v = PyVal.none then opts else setOpt opts x v)

/-- format_gen_args(ctx, args): the copying loop over the allow-list, then the
derived rules in source order: restrict level above 1 forces mix_name to 1;
each name in the repeatable enable flag sets enable_ plus the name to True; a
truthy relative prefix overwrites relative_import; a truthy no_wrap forces
wrap_mode to 0; includes and excludes are joined with spaces. -/
def format_gen_args (a : GenArgs) : Except PyErr Options :=
  match copyFlags a genAttrNames emptyOptions with
  | Except.error e => Except.error e
  | Except.ok opts0 =>
    let restrict := pyGetInt opts0 "restrict_module" 0
    let opts1 := if restrict > 1 then setOpt opts0 "mix_name" (PyVal.int 1) else opts0
    let opts2 := match a.enables with
      | some (x :: xs) =>
        (x :: xs).foldl (fun o f => setOpt o ("enable_" ++ f) (PyVal.bool true)) opts1
      | _ => opts1
    let opts3 := match a.relative with
      | some s => if s = "" then opts2 else setOpt opts2 "relative_import" (PyVal.str s)
      | _ => opts2
    let opts4 := if a.no_wrap = some true then setOpt opts3 "wrap_mode" (PyVal.int 0) else opts3
    let opts5 := match a.includes with
      | some (x :: xs) => setOpt opts4 "includes" (PyVal.str (String.intercalate " " (x :: xs)))
      | _ => opts4
    let opts6 := match a.excludes with
      | some (x :: xs) => setOpt opts5 "excludes" (PyVal.str (String.intercalate " " (x :: xs)))
      | _ => opts5
    Except.ok opts6

/-- A gen namespace with nothing supplied except the required positional
inputs: every optional dest is the argparse default (None, except the
store_true flag no_runtime whose parser default is False). -/
def baseGenArgs (ins : List String) : GenArgs where
  output := Option.none
  pack := Option.none
  no_runtime := false
  recursive := Option.none
  findall := Option.none
  includes := Option.none
  excludes := Option.none
  obf_module := Option.none
  obf_code := Option.none
  no_wrap := Option.none
  mix_str := Option.none
  mix_name := Option.none
  enable_bcc := Option.none
  enable_rft := Option.none
  enable_jit := Option.none
  enable_themida := Option.none
  assert_call := Option.none
  assert_import := Option.none
  enables := Option.none
  restrict_module := Option.none
  relative_import := Option.none
  relative := Option.none
  platforms := Option.none
  outer := Option.none
  expired := Option.none
  period := Option.none
  devices := Option.none
  bind_interp := Option.none
  hook := Option.none
  inputs := ins

/-- Character-list prefix test used to model str.startswith. -/
def charsStartWith : List Char → List Char → Bool
  | [], _ => true
  | _ :: _, [] => false
  | c :: ps, d :: ss => c == d && charsStartWith ps ss

/-- Python s.startswith(p), computed on the underlying character lists. -/
def pyStartsWith (s p : String) : Bool := charsStartWith p.data s.data

/-- The resolved per-invocation Context as check_gen_context reads it.  The
accessors are external collaborators (cli/context.py), so they appear here as
plain fields: runtime_platforms is the configured target platform list,
pyarmor_platform the native platform string, no_runtime the pushed
cmd_options entry, runtime_outer the outer key reference (the empty string
models a falsy, unset reference), runtime_keyfile the expected runtime key
artifact name, and read_outer_info the external lookup of registered key
metadata, which may raise. -/
structure Ctx where
  runtime_platforms : List String
  enable_themida : Bool
  pyarmor_platform : String
  no_runtime : Bool
  runtime_outer : String
  runtime_keyfile : String
  read_outer_info : String → Except PyErr Unit

/-- Rules 2 and 3 of check_gen_context, which run whenever rule 1 does not
raise: no_runtime without an outer reference raises; an outer reference
naming an existing path must contain the runtime key artifact; a
non-existing reference is resolved through read_outer_info, converting
FileNotFoundError into the gen-key hint.  The filesystem os.path.exists is
the parameter fs. -/
def check_outer_rules (fs : String → Bool) (ctx : Ctx) : Except PyErr Unit :=
  if ctx.no_runtime = true ∧ ctx.runtime_outer = "" then
    Except.error (PyErr.cliError "--no_runtime need pass outer key by --outer" [])
  else if ctx.runtime_outer = "" then Except.ok ()
  else if fs ctx.runtime_outer = true then
    if fs (pyJoin ctx.runtime_outer ctx.runtime_keyfile) = false then
      Except.error (PyErr.cliError "no runtime key in \"%s\"" [ctx.runtime_outer])
    else Except.ok ()
  else
    match ctx.read_outer_info ctx.runtime_outer with
    | Except.error PyErr.fileNotFoundError =>
      Except.error (PyErr.cliError
        "no outer key \"%s\" found, please generated it by \"pyarmor gen key\""
        [ctx.runtime_outer])
    | Except.error e => Except.error e
    | Except.ok _ => Except.ok ()

/-- check_gen_context(ctx): rule 1 raises only when some target platform is
configured, enable_themida is set and the native pyarmor platform does not
start with win; otherwise control falls through to the remaining rules. -/
def check_gen_context (fs : String → Bool) (ctx : Ctx) : Except PyErr Unit :=
  if ctx.runtime_platforms ≠ [] ∧ ctx.enable_themida = true ∧
      pyStartsWith ctx.pyarmor_platform "win" = false then
    Except.error (PyErr.cliError "--enable_themida only works for Windows" [])
  else check_outer_rules fs ctx

/-- The generation engine, an external collaborator (cli/generate.py).
runtime_keyid and runtime_keyfile stand for builder.ctx.runtime_keyid and
builder.ctx.runtime_keyfile; generate_runtime_key abstracts the key bytes
produced for a given outer key name; runtime_key the runtime key bytes. -/
structure Builder where
  runtime_keyid : String
  runtime_keyfile : String
  runtime_key : List Nat
  generate_runtime_key : String → List Nat

/-- options atIndex "inputs": the positional argument list stored in the gen
options dict (present whenever the dict was built from a parsed namespace). -/
def optionsInputs (o : Options) : List String :=
  match o "inputs" with
  | some (PyVal.strList xs) => xs
  | _ => []

/-- The observable effect of _cmd_gen_key: the chosen key name, the path the
key file is written to, and the bytes written. -/
structure KeyGenResult where
  keyname : String
  target : String
  data : List Nat
deriving DecidableEq, Repr

/-- _cmd_gen_key(builder, options): rejects more than two positional tokens
with an error interpolating inputs[1:], otherwise picks the context default
runtime_keyid when only the key token is present (n = 1) and the second
token otherwise, and writes the generated key to output joined with the key
name (output defaulting to dist). -/
def _cmd_gen_key (b : Builder) (opts : Options) : Except PyErr KeyGenResult :=
  let inputs := optionsInputs opts
  let n := inputs.length
  if n > 2 then
    Except.error (PyErr.cliError ("too many args " ++ pyReprStrList inputs.tail) [])
  else
    let keyname := if n = 1 then b.runtime_keyid else inputs.getD 1 ""
    let output := pyGetStr opts "output" "dist"
    Except.ok
      { keyname := keyname
        target := pyJoin output keyname
        data := b.generate_runtime_key keyname }

/-- The observable effect of _cmd_gen_runtime: the output directory handed to
the engine and the path of the written runtime key file. -/
structure RuntimeGenResult where
  output : String
  keyfile : String
  data : List Nat
deriving DecidableEq, Repr

/-- _cmd_gen_runtime(builder, options): rejects any extra positional token
and otherwise generates the runtime package into output (defaulting to
dist), writing the runtime key next to it. -/
def _cmd_gen_runtime (b : Builder) (opts : Options) : Except PyErr RuntimeGenResult :=
  let inputs := optionsInputs opts
  if inputs.length > 1 then
    Except.error (PyErr.cliError ("too many args " ++ pyReprStrList inputs.tail) [])
  else
    let output := pyGetStr opts "output" "dist"
    Except.ok
      { output := output
        keyfile := pyJoin output b.runtime_keyfile
        data := b.runtime_key }

/-- Which branch of cmd_gen ran, with the effect of the handler that ran. -/
inductive GenAction where
  | keyGen : KeyGenResult → GenAction
  | runtimeGen : RuntimeGenResult → GenAction
  | build : Option String → GenAction
deriving DecidableEq, Repr

/-- cmd_gen(ctx, args): normalize the arguments, push them onto the context
(push is the external Context.push overlay, abstracted as a parameter),
validate, construct the Builder (mkBuilder abstracts Builder(ctx)), then
dispatch on the lowercased first positional token: key or k selects the
standalone key handler, runtime, run or r the runtime package handler, and
anything else full obfuscation with the pack option. -/
def cmd_gen (fs : String → Bool) (push : Ctx → Options → Ctx)
    (mkBuilder : Ctx → Builder) (ctx : Ctx) (a : GenArgs) : Except PyErr GenAction :=
  match format_gen_args a with
  | Except.error e => Except.error e
  | Except.ok options =>
    let ctx2 := push ctx options
    match check_gen_context fs ctx2 with
    | Except.error e => Except.error e
    | Except.ok _ =>
      let b := mkBuilder ctx2
      let head := (a.inputs.headD "").toLower
      if head = "key" ∨ head = "k" then
        match _cmd_gen_key b options with
        | Except.error e => Except.error e
        | Except.ok r => Except.ok (GenAction.keyGen r)
      else if head = "runtime" ∨ head = "run" ∨ head = "r" then
        match _cmd_gen_runtime b options with
        | Except.error e => Except.error e
        | Except.ok r => Except.ok (GenAction.runtimeGen r)
      else Except.ok (GenAction.build a.pack)

/-- One line of console output, produced by a handler of the root logger:
the numeric severity of the record and its message. -/
structure ConsoleLine where
  level : Nat
  msg : String
deriving DecidableEq, Repr

/-- The forensic error log pyarmor.error.log: opening the FileHandler with
mode w truncates the file unconditionally, and each record that survives the
logger level check is appended with full detail including the traceback
(entries keeps the logged exception). -/
structure ForensicFile where
  truncated : Bool
  entries : List PyErr
deriving DecidableEq, Repr

/-- The observable outcome of the top-level except branch of main: console
lines, the forensic file state, and the process exit status. -/
structure RunOutcome where
  console : List ConsoleLine
  forensic : ForensicFile
  exitCode : Nat
deriving DecidableEq, Repr

/-- The one-line console pointer emitted by log_exception. -/
def pointerMsg : String := "unknown error, please check pyarmor.error.log"

/-- str(e) as printed by logger.error(e) in main. -/
def excMsg : PyErr → String
  | PyErr.cliError m _ => m
  | PyErr.attributeError n => n
  | PyErr.fileNotFoundError => "FileNotFoundError"
  | PyErr.otherError m => m

/-- The effective level of the root logger after log_settings: basicConfig
sets INFO (20), the debug flag lowers it to DEBUG (10), and the silent flag,
applied last, raises it to 100.  Every logger in the module has level NOTSET
and so inherits this effective level, including Pyarmor.Error. -/
def log_settings_level (silent debug : Bool) : Nat :=
  let l := 20
  let l := if debug then 10 else l
  if silent then 100 else l

/-- log_exception(e): the critical console pointer (severity 50, emitted only
if the root effective level allows it), then the forensic FileHandler is
created with mode w (truncating the file), and log.exception(e) appends the
full record only if severity 40 passes the inherited effective level; the
Pyarmor.Error logger does not propagate, so the record never reaches the
console. -/
def log_exception (rootLevel : Nat) (e : PyErr) : List ConsoleLine × ForensicFile :=
  let console := if 50 ≥ rootLevel then [ConsoleLine.mk 50 pointerMsg] else []
  let entries := if 40 ≥ rootLevel then [e] else []
  (console, ForensicFile.mk true entries)

/-- The except Exception branch of main(): with the dedicated except
(CliError, RuntimeError) branch commented out in the source, every uncaught
exception e takes this path: log_exception(e), then logger.error(e) on the
console, then sys.exit(2). -/
def main_handle_exception (rootLevel : Nat) (e : PyErr) : RunOutcome :=
  let r := log_exception rootLevel e
  { console := r.1 ++ (if 40 ≥ rootLevel then [ConsoleLine.mk 40 (excMsg e)] else [])
    forensic := r.2
    exitCode := 2 }

/-- The console lines that point the operator at the forensic log. -/
def pointerLines (ls : List ConsoleLine) : List ConsoleLine :=
  ls.filter (fun l => l.msg == pointerMsg)

/-- A filesystem on which no path exists. -/
def fsEmpty : String → Bool := fun _ => false

/-- An external key metadata lookup that always succeeds. -/
def roInfoOk : String → Except PyErr Unit := fun _ => Except.ok ()

/-- Parsed gen arguments requesting restrict level 2 and nothing else. -/
def argsRestrict2 : GenArgs := { baseGenArgs ["foo.py"] with restrict_module := some 2 }

/-- Parsed gen arguments with both the relative-import shorthand and the
explicit prefixed relative value. -/
def argsRelativeBoth : GenArgs :=
  { baseGenArgs ["foo.py"] with relative_import := some 1, relative := some "mypkg" }

/-- Parsed gen arguments requesting no runtime package, with no outer key. -/
def argsNoRuntime : GenArgs := { baseGenArgs ["foo.py"] with no_runtime := true }

/-- Parsed gen arguments whose first positional token spells the key
sub-token in mixed case. -/
def argsKeyToken : GenArgs := baseGenArgs ["Key"]

/-- A context with enable_themida set on a non-Windows native platform and
no target platform configured. -/
def ctxThemidaNoPlatform : Ctx where
  runtime_platforms := []
  enable_themida := true
  pyarmor_platform := "linux.x86_64"
  no_runtime := false
  runtime_outer := ""
  runtime_keyfile := "pyarmor.rkey"
  read_outer_info := roInfoOk

/-- The same toggle with a target platform configured. -/
def ctxThemidaPlatform : Ctx :=
  { ctxThemidaNoPlatform with runtime_platforms := ["windows.x86_64"] }

/-- A context whose outer key reference names an existing directory. -/
def ctxOuterDir : Ctx where
  runtime_platforms := []
  enable_themida := false
  pyarmor_platform := "linux.x86_64"
  no_runtime := false
  runtime_outer := "keys"
  runtime_keyfile := "pyarmor.rkey"
  read_outer_info := fun _ => Except.error PyErr.fileNotFoundError

/-- A context whose outer key reference does not exist as a path. -/
def ctxOuterName : Ctx := { ctxOuterDir with runtime_outer := "mykey" }

/-- A filesystem on which exactly the directory keys exists. -/
def fsOuterDir : String → Bool := fun p => p == "keys"

/-- A builder whose context-derived default key identifier is pyarmor.rkey. -/
def keyBuilder : Builder where
  runtime_keyid := "pyarmor.rkey"
  runtime_keyfile := "pyarmor.rkey"
  runtime_key := []
  generate_runtime_key := fun _ => [1, 2, 3]

/-- A gen options dict whose positional inputs carry two extra tokens after
the key sub-token. -/
def keyOptsMany : Options :=
  setOpt emptyOptions "inputs" (PyVal.strList ["key", "k1", "k2"])

/-- A gen options dict whose positional inputs carry the key sub-token
alone. -/
def keyOptsBare : Options :=
  setOpt emptyOptions "inputs" (PyVal.strList ["key"])

/-- C1: a CliError reaching main exits with status 2 regardless of the
logging level, and so does every other exception: the process has no
distinct expected-failure exit status, because the dedicated except branch
for CliError is commented out in the source and the generic except Exception
branch calls sys.exit(2) for everything. -/
theorem C1_cli_error_exit_status (lvl : Nat) (m : String) (e : PyErr) :
    (main_handle_exception lvl (PyErr.cliError m [])).exitCode = 2 ∧
    (main_handle_exception lvl e).exitCode = 2 :=
  ⟨rfl, rfl⟩

/-- C2 counterexample: under the silent flag, an unexpected exception leaves
the forensic log without the full detail and the console without the pointer
line, refuting the claim that every such invocation writes the detail and
prints exactly one pointer: the Pyarmor.Error logger inherits the root
effective level 100, which drops the records before any handler sees them. -/
theorem C2_silent_mode_refutation :
    ¬ ((main_handle_exception (log_settings_level true false)
          (PyErr.otherError "boom")).forensic.entries = [PyErr.otherError "boom"] ∧
       (pointerLines (main_handle_exception (log_settings_level true false)
          (PyErr.otherError "boom")).console).length = 1) := by
  decide

/-- C2 amended: for every invocation not run with the silent flag that
terminates with an uncaught exception, the forensic log is freshly truncated
and receives the full record, and the console contains exactly one line
pointing to that log; with the silent flag the log file is still truncated
but stays empty and the console receives nothing. -/
theorem C2_forensic_log_policy (e : PyErr) (dbg : Bool) (h : excMsg e ≠ pointerMsg) :
    ((main_handle_exception (log_settings_level false dbg) e).forensic.truncated = true ∧
     (main_handle_exception (log_settings_level false dbg) e).forensic.entries = [e] ∧
     (pointerLines (main_handle_exception (log_settings_level false dbg) e).console).length
       = 1) ∧
    ((main_handle_exception (log_settings_level true dbg) e).forensic.truncated = true ∧
     (main_handle_exception (log_settings_level true dbg) e).forensic.entries = [] ∧
     (main_handle_exception (log_settings_level true dbg) e).console = []) := by
  have hb : (excMsg e == pointerMsg) = false := beq_eq_false_iff_ne.mpr h
  cases dbg <;>
    simp [main_handle_exception, log_exception, log_settings_level, pointerLines,
      List.filter, hb]

/-- C2 witness for the amended theorem, at a concrete unexpected exception in
the default verbosity. -/
theorem C2_forensic_log_policy_witness :
    ((main_handle_exception (log_settings_level false false)
        (PyErr.otherError "boom")).forensic.truncated = true ∧
     (main_handle_exception (log_settings_level false false)
        (PyErr.otherError "boom")).forensic.entries = [PyErr.otherError "boom"] ∧
     (pointerLines (main_handle_exception (log_settings_level false false)
        (PyErr.otherError "boom")).console).length = 1) ∧
    ((main_handle_exception (log_settings_level true false)
        (PyErr.otherError "boom")).forensic.truncated = true ∧
     (main_handle_exception (log_settings_level true false)
        (PyErr.otherError "boom")).forensic.entries = [] ∧
     (main_handle_exception (log_settings_level true false)
        (PyErr.otherError "boom")).console = []) :=
  C2_forensic_log_policy (PyErr.otherError "boom") false (by decide)

/-- C3 counterexample: at a well-formed argument set (one script, no flags)
the normalizer does not return any options mapping at all: it raises
AttributeError for the allow-list name obj_module, so in particular no
mapping with an entry per supplied flag is returned. -/
theorem C3_no_mapping_returned :
    format_gen_args (baseGenArgs ["foo.py"]) =
      Except.error (PyErr.attributeError "obj_module") := rfl

/-- C3 amended: for every parsed gen argument set, format_gen_args raises
AttributeError on the allow-list name obj_module (the parser declares the
dest obf_module) before any derived rule runs, and never returns an options
mapping. -/
theorem C3_normalizer_always_raises (a : GenArgs) :
    format_gen_args a = Except.error (PyErr.attributeError "obj_module") := rfl

/-- C4: evaluating the normalizer at an argument set with restrict level 2
shows it raising AttributeError on obj_module instead of returning options
with the name-mixing entry forced: the forcing rule on the lines below the
copying loop is unreachable. -/
theorem C4_restrict2_crashes_before_forcing :
    format_gen_args argsRestrict2 = Except.error (PyErr.attributeError "obj_module") := rfl

/-- C5 counterexample: a context with enable_themida set, a non-Windows
native platform and no configured target platform passes validation without
any error, although the claim requires a usage error in exactly this case. -/
theorem C5_no_platform_passes :
    ctxThemidaNoPlatform.enable_themida = true ∧
    pyStartsWith ctxThemidaNoPlatform.pyarmor_platform "win" = false ∧
    ctxThemidaNoPlatform.runtime_platforms = [] ∧
    check_gen_context fsEmpty ctxThemidaNoPlatform = Except.ok () := by
  refine ⟨rfl, by decide, rfl, rfl⟩

/-- C5 amended: the themida rule fires only when at least one target
platform is configured, and then it tests the native pyarmor platform for
the win prefix: with a platform configured, themida on a non-Windows native
platform raises the descriptive usage error; with no platform configured the
toggle is never checked; and whenever the native platform is Windows the
check passes, whatever the configured target family is.  (Stated for
contexts that trigger none of the later validation rules.) -/
theorem C5_themida_native_platform_rule (fs : String → Bool) (ctx : Ctx)
    (hno : ctx.no_runtime = false) (houter : ctx.runtime_outer = "") :
    (ctx.runtime_platforms ≠ [] → ctx.enable_themida = true →
      pyStartsWith ctx.pyarmor_platform "win" = false →
      check_gen_context fs ctx =
        Except.error (PyErr.cliError "--enable_themida only works for Windows" [])) ∧
    (ctx.runtime_platforms = [] → check_gen_context fs ctx = Except.ok ()) ∧
    (pyStartsWith ctx.pyarmor_platform "win" = true →
      check_gen_context fs ctx = Except.ok ()) := by
  refine ⟨fun h1 h2 h3 => ?_, fun h1 => ?_, fun h3 => ?_⟩
  · simp [check_gen_context, h1, h2, h3]
  · simp [check_gen_context, check_outer_rules, h1, hno, houter]
  · simp [check_gen_context, check_outer_rules, h3, hno, houter]

/-- C5 witness for the amended theorem: with a target platform configured,
themida on a Linux native platform is rejected. -/
theorem C5_themida_native_platform_rule_witness :
    check_gen_context fsEmpty ctxThemidaPlatform =
      Except.error (PyErr.cliError "--enable_themida only works for Windows" []) :=
  (C5_themida_native_platform_rule fsEmpty ctxThemidaPlatform rfl rfl).1
    (by decide) rfl (by decide)

/-- C6: a gen invocation that requests no runtime package without an outer
key never reaches validation: cmd_gen raises AttributeError inside
format_gen_args, for every filesystem, push overlay, builder factory and
context, so no usage error naming the missing outer key is raised (and no
Builder work happens, but only because of the crash). -/
theorem C6_no_runtime_crashes_before_validation (fs : String → Bool)
    (push : Ctx → Options → Ctx) (mkBuilder : Ctx → Builder) (ctx : Ctx) :
    cmd_gen fs push mkBuilder ctx argsNoRuntime =
      Except.error (PyErr.attributeError "obj_module") := rfl

/-- C7: for a context carrying an outer key reference, when no earlier rule
fires: a reference naming an existing path whose directory lacks the runtime
key artifact raises the usage error naming that directory, and a reference
that does not exist as a path is handed to the registered key metadata
lookup, whose FileNotFoundError becomes the usage error pointing at the
pyarmor gen key command. -/
theorem C7_outer_key_validation (fs : String → Bool) (ctx : Ctx)
    (houter : ctx.runtime_outer ≠ "")
    (hthem : ¬ (ctx.runtime_platforms ≠ [] ∧ ctx.enable_themida = true ∧
      pyStartsWith ctx.pyarmor_platform "win" = false)) :
    (fs ctx.runtime_outer = true →
      fs (pyJoin ctx.runtime_outer ctx.runtime_keyfile) = false →
      check_gen_context fs ctx =
        Except.error (PyErr.cliError "no runtime key in \"%s\"" [ctx.runtime_outer])) ∧
    (fs ctx.runtime_outer = false →
      ctx.read_outer_info ctx.runtime_outer = Except.error PyErr.fileNotFoundError →
      check_gen_context fs ctx =
        Except.error (PyErr.cliError
          "no outer key \"%s\" found, please generated it by \"pyarmor gen key\""
          [ctx.runtime_outer])) := by
  have h2 : ¬ (ctx.no_runtime = true ∧ ctx.runtime_outer = "") := fun hc => houter hc.2
  refine ⟨fun ha hb => ?_, fun ha hb => ?_⟩
  · simp [check_gen_context, check_outer_rules, hthem, h2, houter, ha, hb]
  · simp [check_gen_context, check_outer_rules, hthem, h2, houter, ha, hb]

/-- C7 witness: a directory named keys that exists without the runtime key
artifact is rejected with the first message, and a non-existing reference
whose metadata lookup fails is rejected with the gen key hint. -/
theorem C7_outer_key_validation_witness :
    check_gen_context fsOuterDir ctxOuterDir =
      Except.error (PyErr.cliError "no runtime key in \"%s\"" ["keys"]) ∧
    check_gen_context fsEmpty ctxOuterName =
      Except.error (PyErr.cliError
        "no outer key \"%s\" found, please generated it by \"pyarmor gen key\""
        ["mykey"]) :=
  ⟨(C7_outer_key_validation fsOuterDir ctxOuterDir (by decide) (by decide)).1 rfl rfl,
   (C7_outer_key_validation fsEmpty ctxOuterName (by decide) (by decide)).2 rfl rfl⟩

/-- C8: for the standalone key handler, an inputs list with two or more
extra tokens after the key sub-token (length above two) is rejected with the
error interpolating the tokens after the sub-token, and an inputs list with
the sub-token alone proceeds, using the context-derived default runtime key
identifier as the key name for both the generated data and the written
target path. -/
theorem C8_gen_key_arg_count (b : Builder) (opts : Options) (xs : List String)
    (h : opts "inputs" = some (PyVal.strList xs)) :
    (2 < xs.length →
      _cmd_gen_key b opts =
        Except.error (PyErr.cliError ("too many args " ++ pyReprStrList xs.tail) [])) ∧
    (xs.length = 1 →
      _cmd_gen_key b opts =
        Except.ok
          { keyname := b.runtime_keyid
            target := pyJoin (pyGetStr opts "output" "dist") b.runtime_keyid
            data := b.generate_runtime_key b.runtime_keyid }) := by
  have hi : optionsInputs opts = xs := by simp [optionsInputs, h]
  refine ⟨fun hlen => ?_, fun hlen => ?_⟩
  · simp [_cmd_gen_key, hi, hlen]
  · simp [_cmd_gen_key, hi, hlen]

/-- C8 witness: the key sub-token followed by two extra tokens is rejected
with the message listing them, and the bare key sub-token yields the default
key name written under dist. -/
theorem C8_gen_key_arg_count_witness :
    _cmd_gen_key keyBuilder keyOptsMany =
      Except.error (PyErr.cliError ("too many args " ++ pyReprStrList ["k1", "k2"]) []) ∧
    _cmd_gen_key keyBuilder keyOptsBare =
      Except.ok
        { keyname := "pyarmor.rkey", target := "dist/pyarmor.rkey", data := [1, 2, 3] } :=
  ⟨(C8_gen_key_arg_count keyBuilder keyOptsMany ["key", "k1", "k2"] rfl).1 (by decide),
   (C8_gen_key_arg_count keyBuilder keyOptsBare ["key"] rfl).2 rfl⟩

/-- C9: evaluating the normalizer at an argument set carrying both the
relative-import shorthand and the explicit prefixed value shows it raising
AttributeError on obj_module instead of returning options whose
relative_import entry is the explicit prefix: the override on the lines
below the copying loop is unreachable. -/
theorem C9_relative_crashes_before_override :
    format_gen_args argsRelativeBoth = Except.error (PyErr.attributeError "obj_module") := rfl

/-- C10: a gen invocation whose first positional token spells the key
sub-token never reaches the dispatch on the lowercased token: cmd_gen raises
AttributeError inside format_gen_args for every filesystem, push overlay,
builder factory and context, so no handler runs at all. -/
theorem C10_key_token_never_dispatched (fs : String → Bool)
    (push : Ctx → Options → Ctx) (mkBuilder : Ctx → Builder) (ctx : Ctx) :
    cmd_gen fs push mkBuilder ctx argsKeyToken =
      Except.error (PyErr.attributeError "obj_module") := rfl
